import Mathlib

/-!
# Verification of the Lotto-pro-API scan reconciliation engine

Shallow embedding of the ticket-scan inventory reconciliation logic of
src/controllers/scanController.ts, of the remaining-ticket SQL expressions of
storeController.ts and reportController.ts, of the daily-report upsert, and of
the account-deletion cascade of superAdminController.ts, together with theorems
settling the specification claims about them.

Modelling conventions: JavaScript numbers that the code uses integrally are
modelled as `Int`; a database value read through `Number(...)` that may be
NULL/NaN is modelled as `Option Int` (`none` = no usable number); the monetary
price is modelled as `Rat`; fallible code paths return `Except`/explicit
outcome constructors mirroring the distinct thrown messages of the source.
-/

/-- Direction value of a book, as in type DirectionValue of scanController.ts. -/
inductive Direction where
  | asc
  | desc
deriving DecidableEq, Repr

/-- Book status values produced by resolveStatus in scanController.ts. -/
inductive BookStatus where
  | inactive
  | active
  | finished
deriving DecidableEq, Repr

/-- Distinct error outcomes of the scan pipeline, one constructor per distinct
thrown message / 400 response of scanController.ts. -/
inductive ScanError where
  | outOfRange                 -- line 291: Ticket number is outside the valid range
  | directionRequiredFirstScan -- line 307: Direction is required for the first scan of a book
  | directionRequiredExisting  -- line 363: Direction is required for this book before scanning
  | directionConflict          -- line 371: Book direction already set
  | boundsOutOfRange           -- line 197: outside the valid range for this book
  | boundsBelowStart           -- line 200: Descending books cannot scan below the start number
  | boundsPastEnd              -- line 203: Ascending books cannot scan past the end number
  | backwardMovement           -- line 157: moved backwards for an ascending book
  | forwardMovement            -- line 163: moved forwards for a descending book
  | bookExhausted              -- lines 399/407: All tickets have already been sold
deriving DecidableEq, Repr

/-- calculateTotalTickets of scanController.ts lines 94-99:
Math.abs(endNumber - startNumber) + 1. -/
def calculateTotalTickets (startNumber endNumber : Int) : Int :=
  ((endNumber - startNumber).natAbs : Int) + 1

/-- computeTicketDelta of scanController.ts lines 146-166. `none` models the
null / NaN previous ticket. -/
def computeTicketDelta (previousTicket : Option Int) (currentTicket : Int)
    (direction : Direction) : Except ScanError Int :=
  match previousTicket with
  | none => .ok 0
  | some prev =>
    match direction with
    | .asc =>
      if currentTicket < prev then .error .backwardMovement
      else .ok (currentTicket - prev)
    | .desc =>
      if prev < currentTicket then .error .forwardMovement
      else .ok (prev - currentTicket)

/-- computeRemainingInventory of scanController.ts lines 168-187. The `else`
branch of the source (asc or undefined direction) is every non-desc case. -/
def computeRemainingInventory (startNumber endNumber currentTicket : Int)
    (direction : Option Direction) : Int :=
  let minTicket := min startNumber endNumber
  let maxTicket := max startNumber endNumber
  let totalTickets := calculateTotalTickets startNumber endNumber
  let soldTickets : Int :=
    match direction with
    | some .desc => max 0 (maxTicket - currentTicket)
    | _ => max 0 (currentTicket - minTicket)
  let clampedSold := min soldTickets totalTickets
  max (totalTickets - clampedSold) 0

/-- assertDirectionBounds of scanController.ts lines 189-205 (it is always
called with the min/max of the master range as startNumber/endNumber). -/
def assertDirectionBounds (ticketNumber : Int) (direction : Option Direction)
    (startNumber endNumber : Int) : Except ScanError Unit :=
  match direction with
  | none => .ok ()
  | some d =>
    if ticketNumber < startNumber ∨ endNumber < ticketNumber then
      .error .boundsOutOfRange
    else if d = Direction.desc ∧ ticketNumber < startNumber then
      .error .boundsBelowStart
    else if d = Direction.asc ∧ endNumber < ticketNumber then
      .error .boundsPastEnd
    else .ok ()

/-- resolveStatus of scanController.ts lines 207-212. -/
def resolveStatus (remaining : Int) : BookStatus :=
  if remaining ≤ 0 then .finished else .active

/-- Row of LOTTERY_MASTER as read by scanTicket (scanController.ts lines
245-277): the fields the reconciliation logic consults. -/
structure LotteryMaster where
  startNumber : Int
  endNumber : Int
  price : Rat
  status : String
deriving DecidableEq, Repr

/-- Row of STORE_LOTTERY_INVENTORY as read by scanTicket: current_count through
Number(...) (none = NULL/NaN, lines 390-393) and direction normalised to
unknown (= none) when not asc/desc (lines 353-356). -/
structure InventoryRow where
  currentCount : Option Int
  direction : Option Direction
deriving DecidableEq, Repr

/-- Book snapshot returned by a successful scan: the row as written back
(current_count := scanned ticket, status, direction, total_count, lines
330-343 and 432-447), the response remaining_tickets (lines 513-521), and
ticketsSoldThisScan. -/
structure InventorySnapshot where
  currentCount : Int
  totalCount : Int
  direction : Option Direction
  status : BookStatus
  remainingTickets : Int
  ticketsSoldThisScan : Int
deriving DecidableEq, Repr

/-- Outcome of one scan request, past payload parsing: the 200 game_active
false responses, the 400 error responses, and the 200 success response. -/
inductive ScanOutcome where
  | gameNotFound
  | gameInactive
  | failure (e : ScanError)
  | success (snap : InventorySnapshot)
deriving DecidableEq, Repr

/-- Existing-book continuation of scanTicket (scanController.ts lines 378-454)
once the direction to use has been resolved: direction bounds check,
exhaustion guard, delta computation, row update and snapshot. -/
def scanExistingBook (master : LotteryMaster) (inv : InventoryRow)
    (ticket : Int) (dirToUse : Direction) : ScanOutcome :=
  let minTicket := min master.startNumber master.endNumber
  let maxTicket := max master.startNumber master.endNumber
  let totalTickets := calculateTotalTickets master.startNumber master.endNumber
  match assertDirectionBounds ticket (some dirToUse) minTicket maxTicket with
  | .error e => .failure e
  | .ok _ =>
    let isExhausted : Bool :=
      match inv.currentCount, dirToUse with
      | some prev, Direction.asc => decide (maxTicket ≤ prev)
      | some prev, Direction.desc => decide (prev ≤ minTicket)
      | none, _ => false
    if isExhausted then .failure .bookExhausted
    else
      match computeTicketDelta inv.currentCount ticket dirToUse with
      | .error e => .failure e
      | .ok delta =>
        let remaining :=
          computeRemainingInventory master.startNumber master.endNumber ticket
            (some dirToUse)
        .success
          { currentCount := ticket
            totalCount := totalTickets
            direction := some dirToUse
            status := resolveStatus remaining
            remainingTickets := remaining
            ticketsSoldThisScan := delta }

/-- scanTicket of scanController.ts lines 245-551, as a pure function of the
master lookup result, the inventory lookup result, the parsed ticket number
and the parsed direction input (payload parsing and store authorization happen
before this logic and are modelled separately). -/
def scanTicketCore (masterOpt : Option LotteryMaster) (invOpt : Option InventoryRow)
    (ticket : Int) (dirInput : Option Direction) : ScanOutcome :=
  match masterOpt with
  | none => .gameNotFound
  | some master =>
    if master.status ≠ "active" then .gameInactive
    else
      let minTicket := min master.startNumber master.endNumber
      let maxTicket := max master.startNumber master.endNumber
      if ticket < minTicket ∨ maxTicket < ticket then .failure .outOfRange
      else
        match invOpt with
        | none =>
          match dirInput with
          | none => .failure .directionRequiredFirstScan
          | some d =>
            match assertDirectionBounds ticket (some d) minTicket maxTicket with
            | .error e => .failure e
            | .ok _ =>
              let totalTickets :=
                calculateTotalTickets master.startNumber master.endNumber
              let remaining :=
                computeRemainingInventory master.startNumber master.endNumber
                  ticket (some d)
              .success
                { currentCount := ticket
                  totalCount := totalTickets
                  direction := some d
                  status := resolveStatus remaining
                  remainingTickets := remaining
                  ticketsSoldThisScan := 0 }
        | some inv =>
          match inv.direction with
          | none =>
            match dirInput with
            | none => .failure .directionRequiredExisting
            | some d => scanExistingBook master inv ticket d
          | some stored =>
            match dirInput with
            | some di =>
              if di ≠ stored then .failure .directionConflict
              else scanExistingBook master inv ticket stored
            | none => scanExistingBook master inv ticket stored

/-- Claim C1: delta computation of the reconciliation engine. For a recorded
previous ticket t0 and scanned ticket t1: on an asc book the delta is t1 - t0
when t0 ≤ t1 and the scan fails with BackwardMovement when t1 < t0; on a desc
book the delta is t0 - t1 when t1 ≤ t0 and the scan fails with ForwardMovement
when t0 < t1; with no previous ticket (null baseline) the delta is 0. -/
theorem computeTicketDelta_spec (t0 t1 : Int) :
    (computeTicketDelta none t1 Direction.asc = .ok 0) ∧
    (computeTicketDelta none t1 Direction.desc = .ok 0) ∧
    (t0 ≤ t1 → computeTicketDelta (some t0) t1 Direction.asc = .ok (t1 - t0)) ∧
    (t1 < t0 → computeTicketDelta (some t0) t1 Direction.asc = .error .backwardMovement) ∧
    (t1 ≤ t0 → computeTicketDelta (some t0) t1 Direction.desc = .ok (t0 - t1)) ∧
    (t0 < t1 → computeTicketDelta (some t0) t1 Direction.desc = .error .forwardMovement) := by
  refine ⟨rfl, rfl, ?_, ?_, ?_, ?_⟩ <;> intro h <;> simp [computeTicketDelta] <;> omega

/-- Witness for C1 at concrete inputs: previous ticket 3, scanned 7 on an asc
book gives delta 4; previous 7, scanned 3 fails with BackwardMovement; the
desc cases and the null baseline evaluated likewise. -/
theorem computeTicketDelta_spec_witness :
    computeTicketDelta (some 3) 7 Direction.asc = .ok 4 ∧
    computeTicketDelta (some 7) 3 Direction.asc = .error .backwardMovement ∧
    computeTicketDelta (some 7) 3 Direction.desc = .ok 4 ∧
    computeTicketDelta (some 3) 7 Direction.desc = .error .forwardMovement ∧
    computeTicketDelta none 7 Direction.asc = .ok 0 :=
  ⟨(computeTicketDelta_spec 3 7).2.2.1 (by decide),
   (computeTicketDelta_spec 7 3).2.2.2.1 (by decide),
   (computeTicketDelta_spec 7 3).2.2.2.2.1 (by decide),
   (computeTicketDelta_spec 3 7).2.2.2.2.2 (by decide),
   (computeTicketDelta_spec 3 7).1⟩

-- Helper: the direction bounds assertion passes for any in-range ticket.
lemma assertDirectionBounds_ok (t : Int) (d : Option Direction) (lo hi : Int)
    (h1 : lo ≤ t) (h2 : t ≤ hi) :
    assertDirectionBounds t d lo hi = .ok () := by
  cases d with
  | none => rfl
  | some dd =>
    simp only [assertDirectionBounds]
    split_ifs with hA hB hC
    · exact absurd hA (by omega)
    · exact absurd hB.2 (by omega)
    · exact absurd hC.2 (by omega)
    · rfl

-- Helper: an in-range ticket always leaves at least one remaining ticket.
lemma computeRemainingInventory_pos (s e t : Int) (d : Option Direction)
    (h1 : min s e ≤ t) (h2 : t ≤ max s e) :
    1 ≤ computeRemainingInventory s e t d := by
  rcases d with _ | dd
  · simp only [computeRemainingInventory, calculateTotalTickets]
    omega
  · cases dd <;> simp only [computeRemainingInventory, calculateTotalTickets] <;> omega

-- Helper: a positive remaining count resolves to the active status.
lemma resolveStatus_active (r : Int) (h : 1 ≤ r) : resolveStatus r = .active := by
  rw [resolveStatus, if_neg (by omega)]

/-- Claim C5: range bounds. For every scan against an active master record, a
ticket number outside [min(start_number, end_number), max(start_number,
end_number)] fails with OutOfRange, for every inventory state and every
direction input, also when start_number > end_number. -/
theorem scanTicket_outOfRange (master : LotteryMaster) (invOpt : Option InventoryRow)
    (ticket : Int) (dirInput : Option Direction)
    (hActive : master.status = "active")
    (hOut : ticket < min master.startNumber master.endNumber ∨
            max master.startNumber master.endNumber < ticket) :
    scanTicketCore (some master) invOpt ticket dirInput = .failure .outOfRange := by
  simp only [scanTicketCore]
  rw [if_neg (by simp [hActive]), if_pos hOut]

/-- Witness for C5: a game with range 100..1 (start above end) and an asc book,
scanned at ticket 500, fails with OutOfRange. -/
theorem scanTicket_outOfRange_witness :
    scanTicketCore (some ⟨100, 1, 5, "active"⟩)
      (some ⟨some 5, some Direction.asc⟩) 500 (some Direction.asc) =
      .failure .outOfRange :=
  scanTicket_outOfRange ⟨100, 1, 5, "active"⟩ (some ⟨some 5, some Direction.asc⟩)
    500 (some Direction.asc) rfl (by decide)

/-- Claim C4 counterexample: direction permanence does NOT hold regardless of
the scanned ticket number. For a master with range 1..100 and a book whose
direction is already asc, a scan supplying the opposite direction desc with the
out-of-range ticket 500 fails with OutOfRange, not DirectionConflict: the range
check of scanTicket (line 290) runs before the inventory direction check (line
369). -/
theorem directionConflict_not_regardless_of_ticket :
    scanTicketCore (some ⟨1, 100, 5, "active"⟩)
        (some ⟨some 5, some Direction.asc⟩) 500 (some Direction.desc) =
      .failure .outOfRange ∧
    scanTicketCore (some ⟨1, 100, 5, "active"⟩)
        (some ⟨some 5, some Direction.asc⟩) 500 (some Direction.desc) ≠
      .failure .directionConflict := by
  constructor
  · rfl
  · decide

-- Helper: a successful existing-book scan writes back the direction it was
-- resolved with.
lemma scanExistingBook_success_direction (master : LotteryMaster)
    (inv : InventoryRow) (ticket : Int) (d : Direction) (snap : InventorySnapshot)
    (h : scanExistingBook master inv ticket d = .success snap) :
    snap.direction = some d := by
  simp only [scanExistingBook] at h
  split at h
  · exact absurd h (by simp)
  · split at h
    · exact absurd h (by simp)
    · split at h
      · exact absurd h (by simp)
      · rw [ScanOutcome.success.injEq] at h
        subst h
        rfl

/-- Claim C4 (amended): direction permanence. For a book whose stored
direction is set to asc or desc: a scan against the active master supplying
the opposite direction with an in-range ticket number fails with
DirectionConflict (with an out-of-range ticket number the scan still fails,
but with OutOfRange, because the range check precedes the direction check);
and every successful scan of the book writes back the stored direction
unchanged, whatever direction input accompanies it. -/
theorem scanTicket_directionConflict (master : LotteryMaster) (inv : InventoryRow)
    (stored : Direction) (ticket : Int)
    (hStored : inv.direction = some stored) :
    (∀ di : Direction, master.status = "active" →
      min master.startNumber master.endNumber ≤ ticket →
      ticket ≤ max master.startNumber master.endNumber →
      di ≠ stored →
      scanTicketCore (some master) (some inv) ticket (some di) =
        .failure .directionConflict) ∧
    (∀ (dirInput : Option Direction) (snap : InventorySnapshot),
      scanTicketCore (some master) (some inv) ticket dirInput = .success snap →
      snap.direction = some stored) := by
  constructor
  · intro di hActive hLo hHi hConf
    simp only [scanTicketCore]
    rw [if_neg (by simp [hActive]), if_neg (by omega), hStored]
    simp only [if_pos hConf]
  · intro dirInput snap h
    cases dirInput with
    | none =>
      simp only [scanTicketCore, hStored] at h
      split at h
      · exact absurd h (by simp)
      · split at h
        · exact absurd h (by simp)
        · exact scanExistingBook_success_direction master inv ticket stored snap h
    | some di =>
      simp only [scanTicketCore, hStored] at h
      split at h
      · exact absurd h (by simp)
      · split at h
        · exact absurd h (by simp)
        · split at h
          · exact absurd h (by simp)
          · exact scanExistingBook_success_direction master inv ticket stored
              snap h

/-- Witness for the amended C4: a book with direction asc, scanned in range at
ticket 50 with the conflicting input desc, fails with DirectionConflict; the
same book scanned at ticket 50 with no direction input succeeds and keeps
direction asc. -/
theorem scanTicket_directionConflict_witness :
    scanTicketCore (some ⟨1, 100, 5, "active"⟩)
        (some ⟨some 5, some Direction.asc⟩) 50 (some Direction.desc) =
      .failure .directionConflict ∧
    (⟨50, 100, some Direction.asc, .active, 51, 45⟩ : InventorySnapshot).direction =
      some Direction.asc :=
  ⟨(scanTicket_directionConflict ⟨1, 100, 5, "active"⟩ ⟨some 5, some Direction.asc⟩
      Direction.asc 50 rfl).1 Direction.desc rfl (by decide) (by decide) (by decide),
   (scanTicket_directionConflict ⟨1, 100, 5, "active"⟩ ⟨some 5, some Direction.asc⟩
      Direction.asc 50 rfl).2 none
      ⟨50, 100, some Direction.asc, .active, 51, 45⟩ (by decide)⟩

-- Helper: the exhaustion guard of the existing-book path fires for an in-range
-- ticket whenever the recorded previous ticket sits at or beyond the selling
-- boundary of the direction in use.
lemma scanExistingBook_exhausted (master : LotteryMaster) (inv : InventoryRow)
    (prev ticket : Int) (d : Direction)
    (hLo : min master.startNumber master.endNumber ≤ ticket)
    (hHi : ticket ≤ max master.startNumber master.endNumber)
    (hPrev : inv.currentCount = some prev)
    (hEx : (d = Direction.asc ∧ max master.startNumber master.endNumber ≤ prev) ∨
           (d = Direction.desc ∧ prev ≤ min master.startNumber master.endNumber)) :
    scanExistingBook master inv ticket d = .failure .bookExhausted := by
  simp only [scanExistingBook]
  rw [assertDirectionBounds_ok ticket (some d) _ _ hLo hHi]
  rcases hEx with ⟨rfl, hB⟩ | ⟨rfl, hB⟩ <;> simp [hPrev, hB]

/-- Claim C2: exhaustion guard. For every scan of an existing book against the
active master, with an in-range ticket number and a direction input compatible
with the stored direction, if the stored direction is asc and the recorded
previous ticket number is at or above maxTicket, or the stored direction is
desc and the previous ticket number is at or below minTicket, the scan fails
with BookExhausted. -/
theorem scanTicket_bookExhausted (master : LotteryMaster) (inv : InventoryRow)
    (prev ticket : Int) (dirInput : Option Direction)
    (hActive : master.status = "active")
    (hLo : min master.startNumber master.endNumber ≤ ticket)
    (hHi : ticket ≤ max master.startNumber master.endNumber)
    (hPrev : inv.currentCount = some prev)
    (hCase :
      (inv.direction = some Direction.asc ∧
        max master.startNumber master.endNumber ≤ prev ∧
        (dirInput = none ∨ dirInput = some Direction.asc)) ∨
      (inv.direction = some Direction.desc ∧
        prev ≤ min master.startNumber master.endNumber ∧
        (dirInput = none ∨ dirInput = some Direction.desc))) :
    scanTicketCore (some master) (some inv) ticket dirInput =
      .failure .bookExhausted := by
  simp only [scanTicketCore]
  rw [if_neg (by simp [hActive]), if_neg (by omega)]
  rcases hCase with ⟨hDir, hB, hDI⟩ | ⟨hDir, hB, hDI⟩ <;>
    rw [hDir] <;> rcases hDI with rfl | rfl <;>
    simp only [ne_eq, if_neg] <;>
    first
      | exact scanExistingBook_exhausted master inv prev ticket _ hLo hHi hPrev
          (Or.inl ⟨rfl, hB⟩)
      | exact scanExistingBook_exhausted master inv prev ticket _ hLo hHi hPrev
          (Or.inr ⟨rfl, hB⟩)

/-- Witness for C2: an asc book whose previous ticket equals maxTicket = 100,
scanned in range at ticket 50 with no direction input, fails with
BookExhausted; likewise a desc book at minTicket = 1. -/
theorem scanTicket_bookExhausted_witness :
    scanTicketCore (some ⟨1, 100, 5, "active"⟩)
        (some ⟨some 100, some Direction.asc⟩) 50 none = .failure .bookExhausted ∧
    scanTicketCore (some ⟨1, 100, 5, "active"⟩)
        (some ⟨some 1, some Direction.desc⟩) 50 (some Direction.desc) =
      .failure .bookExhausted :=
  ⟨scanTicket_bookExhausted ⟨1, 100, 5, "active"⟩ ⟨some 100, some Direction.asc⟩
      100 50 none rfl (by decide) (by decide) rfl
      (Or.inl ⟨rfl, by decide, Or.inl rfl⟩),
   scanTicket_bookExhausted ⟨1, 100, 5, "active"⟩ ⟨some 1, some Direction.desc⟩
      1 50 (some Direction.desc) rfl (by decide) (by decide) rfl
      (Or.inr ⟨rfl, by decide, Or.inr rfl⟩)⟩


-- Helper: a successful existing-book scan of an in-range ticket writes status
-- active and reports at least one remaining ticket.
lemma scanExistingBook_success_status (master : LotteryMaster) (inv : InventoryRow)
    (ticket : Int) (d : Direction) (snap : InventorySnapshot)
    (hLo : min master.startNumber master.endNumber ≤ ticket)
    (hHi : ticket ≤ max master.startNumber master.endNumber)
    (h : scanExistingBook master inv ticket d = .success snap) :
    snap.status = .active ∧ 1 ≤ snap.remainingTickets := by
  have hPos := computeRemainingInventory_pos master.startNumber master.endNumber
    ticket (some d) hLo hHi
  simp only [scanExistingBook] at h
  rw [assertDirectionBounds_ok ticket (some d) _ _ hLo hHi] at h
  simp only [ScanOutcome.success.injEq] at h
  split at h
  · exact absurd h (by simp)
  · split at h
    · exact absurd h (by simp)
    · rw [ScanOutcome.success.injEq] at h
      subst h
      exact ⟨resolveStatus_active _ hPos, hPos⟩

-- Helper: every success outcome of the scan pipeline carries status active and
-- a positive remaining count.
lemma scanTicketCore_success_status (masterOpt : Option LotteryMaster)
    (invOpt : Option InventoryRow) (ticket : Int) (dirInput : Option Direction)
    (snap : InventorySnapshot)
    (h : scanTicketCore masterOpt invOpt ticket dirInput = .success snap) :
    snap.status = .active ∧ 1 ≤ snap.remainingTickets := by
  cases masterOpt with
  | none => exact absurd h (by simp [scanTicketCore])
  | some master =>
    simp only [scanTicketCore] at h
    split at h
    · exact absurd h (by simp)
    · split at h
      · exact absurd h (by simp)
      · rename_i hInRange
        have hLo : min master.startNumber master.endNumber ≤ ticket := by omega
        have hHi : ticket ≤ max master.startNumber master.endNumber := by omega
        have hPos := computeRemainingInventory_pos master.startNumber
          master.endNumber ticket
        split at h
        · -- first scan of the book
          split at h
          · exact absurd h (by simp)
          · rename_i d
            rw [assertDirectionBounds_ok ticket (some d) _ _ hLo hHi] at h
            simp only [ScanOutcome.success.injEq] at h
            subst h
            exact ⟨resolveStatus_active _ (hPos (some d) hLo hHi),
              hPos (some d) hLo hHi⟩
        · -- existing book
          rename_i inv
          split at h
          · -- stored direction is unknown
            split at h
            · exact absurd h (by simp)
            · rename_i d
              exact scanExistingBook_success_status master inv ticket d snap
                hLo hHi h
          · -- stored direction set
            rename_i stored hstored
            split at h
            · -- a direction input was supplied
              split at h
              · exact absurd h (by simp)
              · exact scanExistingBook_success_status master inv ticket stored
                  snap hLo hHi h
            · -- no direction input
              exact scanExistingBook_success_status master inv ticket stored
                snap hLo hHi h

/-- Claim C3: for every in-range ticket number and every direction,
computeRemainingInventory returns at least 1 and resolveStatus of that value is
active, never finished; consequently every successful scan outcome carries
status active — the finished state is unreachable through the scan endpoint
and the last ticket of a book is never counted as sold. -/
theorem scan_remaining_pos_never_finished (s e t : Int) (d : Option Direction) :
    (min s e ≤ t → t ≤ max s e →
      1 ≤ computeRemainingInventory s e t d ∧
      resolveStatus (computeRemainingInventory s e t d) = .active) ∧
    (∀ (masterOpt : Option LotteryMaster) (invOpt : Option InventoryRow)
        (dirInput : Option Direction) (snap : InventorySnapshot),
      scanTicketCore masterOpt invOpt t dirInput = .success snap →
        snap.status = .active ∧ snap.status ≠ .finished) := by
  constructor
  · intro hLo hHi
    have hPos := computeRemainingInventory_pos s e t d hLo hHi
    exact ⟨hPos, resolveStatus_active _ hPos⟩
  · intro masterOpt invOpt dirInput snap h
    have hs := scanTicketCore_success_status masterOpt invOpt t dirInput snap h
    refine ⟨hs.1, ?_⟩
    rw [hs.1]
    decide

/-- Witness for C3: for a book with range 1..100, the remaining count at the
final asc ticket 100 is at least 1 with status active, and the concrete scan of
that last ticket (previous ticket 99) succeeds with status active, not
finished. -/
theorem scan_remaining_pos_never_finished_witness :
    (1 ≤ computeRemainingInventory 1 100 100 (some Direction.asc) ∧
      resolveStatus (computeRemainingInventory 1 100 100 (some Direction.asc)) =
        .active) ∧
    ((⟨100, 100, some Direction.asc, .active, 1, 1⟩ : InventorySnapshot).status =
        .active ∧
      (⟨100, 100, some Direction.asc, .active, 1, 1⟩ : InventorySnapshot).status ≠
        .finished) :=
  ⟨(scan_remaining_pos_never_finished 1 100 100 (some Direction.asc)).1
      (by decide) (by decide),
   (scan_remaining_pos_never_finished 1 100 100 (some Direction.asc)).2
      (some ⟨1, 100, 5, "active"⟩) (some ⟨some 99, some Direction.asc⟩) none
      ⟨100, 100, some Direction.asc, .active, 1, 1⟩ (by decide)⟩

/-- Row of DAILY_REPORT for one (store, lottery, book, date) key: the
accumulated tickets_sold, total_sales and the most recent contributing
scan_id. -/
structure DailyReportRow where
  ticketsSold : Int
  totalSales : Rat
  scanId : Nat
deriving DecidableEq, Repr

/-- Semantics of the DAILY_REPORT INSERT ... ON DUPLICATE KEY UPDATE of
scanController.ts lines 490-507 for the addressed key: fresh insert when no
row exists, otherwise tickets_sold and total_sales are incremented by the new
values and scan_id is replaced. -/
def upsertDailyReport (existing : Option DailyReportRow) (scanId : Nat)
    (delta : Int) (price : Rat) : DailyReportRow :=
  match existing with
  | none => { ticketsSold := delta, totalSales := delta * price, scanId := scanId }
  | some r =>
    { ticketsSold := r.ticketsSold + delta
      totalSales := r.totalSales + delta * price
      scanId := scanId }

/-- Daily-report accumulation step of scanTicket, scanController.ts lines
486-511: the upsert runs only when the scan log insert produced a correlation
id and the computed delta is positive; otherwise the row is untouched. -/
def dailyReportStep (existing : Option DailyReportRow) (scanLogId : Option Nat)
    (delta : Int) (price : Rat) : Option DailyReportRow :=
  match scanLogId with
  | some id => if 0 < delta then some (upsertDailyReport existing id delta price)
               else existing
  | none => existing

/-- Claim C6: daily-report accumulator contract. The upsert is skipped (rows
unchanged) whenever the delta is not positive or the scan-log write failed (no
correlation id); when it runs against an existing row, the delta is added to
tickets_sold and delta times price is added to total_sales, never overwriting
with a scan-to-date total — so zero-delta scans never alter the totals and
multiple scans per day accumulate. -/
theorem dailyReport_accumulator (existing : Option DailyReportRow)
    (scanLogId : Option Nat) (delta : Int) (price : Rat) :
    (delta ≤ 0 ∨ scanLogId = none →
      dailyReportStep existing scanLogId delta price = existing) ∧
    (∀ (id : Nat) (r : DailyReportRow), scanLogId = some id → 0 < delta →
      existing = some r →
      dailyReportStep existing scanLogId delta price =
        some { ticketsSold := r.ticketsSold + delta
               totalSales := r.totalSales + delta * price
               scanId := id }) := by
  constructor
  · intro hSkip
    cases scanLogId with
    | none => rfl
    | some id =>
      rcases hSkip with hD | hNone
      · simp [dailyReportStep, if_neg (by omega : ¬ (0:Int) < delta)]
      · exact absurd hNone (by simp)
  · intro id r hId hD hEx
    subst hId
    subst hEx
    simp [dailyReportStep, if_pos hD, upsertDailyReport]

/-- Witness for C6: with an existing row of 3 tickets and 15.0 sales, a scan
with delta 0 leaves the row unchanged, and a scan with delta 14 at price 5
and scan id 42 accumulates to 17 tickets and 85.0 sales. -/
theorem dailyReport_accumulator_witness :
    dailyReportStep (some ⟨3, 15, 7⟩) (some 42) 0 5 = some ⟨3, 15, 7⟩ ∧
    dailyReportStep (some ⟨3, 15, 7⟩) none 14 5 = some ⟨3, 15, 7⟩ ∧
    dailyReportStep (some ⟨3, 15, 7⟩) (some 42) 14 5 = some ⟨17, 85, 42⟩ :=
  ⟨(dailyReport_accumulator (some ⟨3, 15, 7⟩) (some 42) 0 5).1 (Or.inl (by decide)),
   (dailyReport_accumulator (some ⟨3, 15, 7⟩) none 14 5).1 (Or.inr rfl),
   by
    have := (dailyReport_accumulator (some ⟨3, 15, 7⟩) (some 42) 14 5).2 42
      ⟨3, 15, 7⟩ rfl (by decide) rfl
    rw [this]
    norm_num⟩

/-- Outcome of the best-effort side-effect writes of one scan: the scan-log
insert either returns an insert id or throws (caught at scanController.ts line
482), and the daily-report upsert either applies or throws (caught at line
508). -/
structure SideEffects where
  logInsertId : Option Nat
  reportUpsertFails : Bool
deriving DecidableEq, Repr

/-- scanTicket of scanController.ts lines 245-551 including the best-effort
scan-log and daily-report writes (lines 466-511): returns the HTTP outcome and
the resulting daily-report row for the addressed key. Both catch blocks only
warn, so neither failure reaches the response. -/
def scanTicketFull (masterOpt : Option LotteryMaster) (invOpt : Option InventoryRow)
    (ticket : Int) (dirInput : Option Direction) (eff : SideEffects)
    (existingReport : Option DailyReportRow) :
    ScanOutcome × Option DailyReportRow :=
  match scanTicketCore masterOpt invOpt ticket dirInput with
  | .success snap =>
    let price : Rat :=
      match masterOpt with
      | some master => master.price
      | none => 0
    let report :=
      match eff.logInsertId with
      | some id =>
        if 0 < snap.ticketsSoldThisScan then
          if eff.reportUpsertFails then existingReport
          else some (upsertDailyReport existingReport id snap.ticketsSoldThisScan price)
        else existingReport
      | none => existingReport
    (.success snap, report)
  | other => (other, existingReport)

/-- Claim C9: best-effort side effects. The HTTP outcome of a scan equals the
reconciliation outcome for every combination of scan-log and daily-report
write failures: when reconciliation succeeds, a failed log insert or report
upsert never changes the successful response with its inventory snapshot. -/
theorem scanTicket_sideEffects_never_fail_scan (masterOpt : Option LotteryMaster)
    (invOpt : Option InventoryRow) (ticket : Int) (dirInput : Option Direction)
    (eff : SideEffects) (existingReport : Option DailyReportRow) :
    (scanTicketFull masterOpt invOpt ticket dirInput eff existingReport).1 =
      scanTicketCore masterOpt invOpt ticket dirInput := by
  cases h : scanTicketCore masterOpt invOpt ticket dirInput <;>
    simp [scanTicketFull, h]

/-- Joined inventory row as seen by the remaining-ticket SQL expressions: the
STORE_LOTTERY_INVENTORY columns and the (possibly NULL under the LEFT JOIN of
storeController.ts) LOTTERY_MASTER range columns. A direction other than desc
(asc, NULL or other text) takes the ELSE branch of both CASE expressions. -/
structure InventoryJoinRow where
  direction : Option Direction
  currentCount : Int
  totalCount : Int
  lmStart : Option Int
  lmEnd : Option Int
deriving DecidableEq, Repr

/-- SQL COALESCE over one nullable integer column. -/
def coalesce (x : Option Int) (dflt : Int) : Int := x.getD dflt

/-- STORE_REMAINING_SQL of storeController.ts lines 8-31: direction-aware
distance from the range boundary, clamped to [0, total_count]. -/
def storeRemainingSql (r : InventoryJoinRow) : Int :=
  if r.direction = some Direction.desc then
    max (r.totalCount -
      min (max (max (coalesce r.lmStart 0) (coalesce r.lmEnd 0) - r.currentCount) 0)
        r.totalCount) 0
  else
    max (r.totalCount -
      min (max (r.currentCount - min (coalesce r.lmStart 0) (coalesce r.lmEnd 0)) 0)
        r.totalCount) 0

/-- REMAINING_TICKETS_SQL of reportController.ts lines 6-11: current_count
minus end_number for desc, total_count minus current_count otherwise. -/
def remainingTicketsSql (r : InventoryJoinRow) : Int :=
  if r.direction = some Direction.desc then
    max (r.currentCount - coalesce r.lmEnd 0) 0
  else
    max (r.totalCount - r.currentCount) 0

/-- Claim C7: the remaining-tickets expression of the store-list endpoint and
the one of the report endpoint are not extensionally equal — there is an
inventory row on which the two embedded expressions compute different
remaining-ticket values (an asc book over range 1..100 with last observed
ticket 5: the store expression gives 96, the report expression 95). -/
theorem remainingSql_not_extensionally_equal :
    ∃ r : InventoryJoinRow, storeRemainingSql r ≠ remainingTicketsSql r := by
  refine ⟨⟨some Direction.asc, 5, 100, some 1, some 100⟩, ?_⟩
  decide

/-- Scan request payload fields consulted by parseScanInput (models/types.ts /
scanController.ts lines 14-92). JSON numeric fields are modelled as integers,
so the NaN rejection branches of the source (lines 59-61, 77-79) have no
inhabitant here. -/
structure ScanTicketRequest where
  barcode_data : Option String
  lottery_number : Option String
  ticket_serial : Option String
  ticket_number : Option Int
  pack_number : Option Int
deriving DecidableEq, Repr

/-- ParsedScanPayload of scanController.ts lines 7-12. -/
structure ParsedScanPayload where
  lotteryNumber : String
  ticketSerial : String
  packNumber : Option Int
  raw : String
deriving DecidableEq, Repr

/-- Distinct parse failures of parseScanInput, one constructor per thrown
message. -/
inductive ParseError where
  | invalidDashFormat     -- line 35: Expected XXX-YYYYYY-ZZZ
  | invalidNumericFormat  -- lines 40-42: digits string with at least 12 characters
  | missingFields         -- lines 89-91: Provide either barcode_data or ...
deriving DecidableEq, Repr

-- JavaScript parseInt(s, 10): skip leading whitespace, optional sign, consume
-- leading decimal digits; NaN (here none) when no digit is consumed.
def digitsToNat (ds : List Char) : Nat :=
  ds.foldl (fun acc c => acc * 10 + (c.toNat - 48)) 0

def jsParseIntCore (cs : List Char) : Option Int :=
  let ds := cs.takeWhile Char.isDigit
  if ds.isEmpty then none else some ((digitsToNat ds : Nat) : Int)

def jsParseInt (s : String) : Option Int :=
  match s.toList.dropWhile Char.isWhitespace with
  | '-' :: rest => (jsParseIntCore rest).map (fun n => -n)
  | '+' :: rest => jsParseIntCore rest
  | cs => jsParseIntCore cs

-- JavaScript String.prototype.trim: whitespace removed from both ends.
def jsTrim (cs : List Char) : List Char :=
  ((cs.dropWhile Char.isWhitespace).reverse.dropWhile Char.isWhitespace).reverse

-- JavaScript String.prototype.split with a one-character separator: every
-- occurrence splits, so "a--b" gives ["a", "", "b"] and "" gives [""].
def splitOnChar (sep : Char) : List Char → List (List Char)
  | [] => [[]]
  | c :: rest =>
    let r := splitOnChar sep rest
    if c = sep then [] :: r
    else
      match r with
      | [] => [[c]]
      | h :: t => (c :: h) :: t

-- raw.replace of a global whitespace pattern with the empty string.
def stripWhitespace (s : String) : String :=
  String.mk (s.toList.filter (fun c => !c.isWhitespace))

-- Test of the all-digits pattern used at line 39 (the string is nonempty there
-- because of the accompanying length bound).
def isAllDigits (s : String) : Bool :=
  s.toList.all Char.isDigit

-- JavaScript String.prototype.substring(a, b) for a ≤ b within bounds.
def jsSubstring (s : String) (a b : Nat) : String :=
  String.mk ((s.toList.drop a).take (b - a))

/-- Barcode branch of parseScanInput, scanController.ts lines 15-66: a
dash-delimited barcode must have exactly three parts with truthy lottery and
serial segments and a numeric pack; a dashless barcode must be all digits of
length at least 12 and is cut at fixed widths 3/6/3, with a supplied
ticket_number overriding the parsed pack number. -/
def parseBarcode (barcodeData : String) (ticketNumberField : Option Int) :
    Except ParseError ParsedScanPayload :=
  let raw := String.mk (jsTrim barcodeData.toList)
  if raw.toList.contains '-' then
    match (splitOnChar '-' raw.toList).map String.mk with
    | [lotteryNumber, ticketSerial, pack] =>
      match jsParseInt pack with
      | some packNumber =>
        if lotteryNumber ≠ "" ∧ ticketSerial ≠ "" then
          .ok ⟨lotteryNumber, ticketSerial, some packNumber, raw⟩
        else .error .invalidDashFormat
      | none => .error .invalidDashFormat
    | _ => .error .invalidDashFormat
  else
    let numeric := stripWhitespace raw
    if isAllDigits numeric ∧ 12 ≤ numeric.length then
      let lotteryNumber := jsSubstring numeric 0 3
      let ticketSerial := jsSubstring numeric 3 9
      let packSegment := jsSubstring numeric 9 12
      let packNumber := jsParseInt packSegment
      match ticketNumberField with
      | some manualTicket => .ok ⟨lotteryNumber, ticketSerial, some manualTicket, raw⟩
      | none => .ok ⟨lotteryNumber, ticketSerial, packNumber, raw⟩
    else .error .invalidNumericFormat

/-- Structured-fields branch of parseScanInput, scanController.ts lines 68-91:
pack_number ?? ticket_number, with truthy lottery_number and ticket_serial. -/
def parseStructured (p : ScanTicketRequest) : Except ParseError ParsedScanPayload :=
  match p.pack_number.orElse (fun _ => p.ticket_number) with
  | some directTicketNumber =>
    if p.lottery_number.getD "" ≠ "" ∧ p.ticket_serial.getD "" ≠ "" then
      .ok ⟨p.lottery_number.getD "", p.ticket_serial.getD "",
        some directTicketNumber,
        p.lottery_number.getD "" ++ "-" ++ p.ticket_serial.getD "" ++ "-" ++
          toString directTicketNumber⟩
    else .error .missingFields
  | none => .error .missingFields

/-- parseScanInput of scanController.ts lines 14-92: a truthy barcode_data
selects the barcode branch, otherwise the structured branch applies. -/
def parseScanInput (p : ScanTicketRequest) : Except ParseError ParsedScanPayload :=
  match p.barcode_data with
  | some bd => if bd ≠ "" then parseBarcode bd p.ticket_number else parseStructured p
  | none => parseStructured p

/-- Truthiness of the barcode_data field (input shape a). -/
def barcodeShapePresent (p : ScanTicketRequest) : Bool :=
  match p.barcode_data with
  | some s => s != ""
  | none => false

/-- Resolvability of the structured input shape (shape b): truthy
lottery_number and ticket_serial together with a pack/ticket number. -/
def structuredShapeComplete (p : ScanTicketRequest) : Bool :=
  (p.lottery_number.getD "" != "") && (p.ticket_serial.getD "" != "") &&
    (p.pack_number.orElse (fun _ => p.ticket_number)).isSome

-- Helper: the barcode branch never produces the MissingFields error; its
-- failures are the two invalid-format errors.
lemma parseBarcode_ne_missingFields (bd : String) (tn : Option Int) :
    parseBarcode bd tn ≠ .error .missingFields := by
  simp only [parseBarcode]
  repeat' split
  all_goals simp

-- Helper: the structured branch fails with MissingFields exactly when the
-- structured shape is incomplete.
lemma parseStructured_missingFields_iff (p : ScanTicketRequest) :
    (parseStructured p = .error .missingFields) ↔
      structuredShapeComplete p = false := by
  unfold parseStructured structuredShapeComplete
  cases hd : p.pack_number.orElse (fun _ => p.ticket_number) with
  | none => simp
  | some d =>
    split_ifs with hc
    · simp [hc.1, hc.2]
    · rw [not_and_or, not_not, not_not] at hc
      constructor
      · intro _
        rcases hc with hc | hc <;> simp [hc]
      · intro _
        rfl

/-- Claim C8 counterexample: input-shape exclusivity fails. The payload with
barcode_data "123456789012" AND the full structured shape (lottery_number
"999", ticket_serial "888888", ticket_number 55) has both input shapes
resolvable, yet parseScanInput does not fail with MissingFields — it silently
combines the shapes, taking lottery number "123" and serial "456789" from the
barcode while the structured ticket_number 55 overrides the pack number 12
parsed from the barcode. -/
theorem parseScanInput_combines_both_shapes :
    barcodeShapePresent
        ⟨some "123456789012", some "999", some "888888", some 55, none⟩ = true ∧
    structuredShapeComplete
        ⟨some "123456789012", some "999", some "888888", some 55, none⟩ = true ∧
    parseScanInput ⟨some "123456789012", some "999", some "888888", some 55, none⟩ =
      .ok ⟨"123", "456789", some 55, "123456789012"⟩ ∧
    parseScanInput ⟨some "123456789012", some "999", some "888888", some 55, none⟩ ≠
      .error .missingFields := by
  refine ⟨rfl, rfl, rfl, fun h => ?_⟩
  rw [show parseScanInput
      ⟨some "123456789012", some "999", some "888888", some 55, none⟩ =
      .ok ⟨"123", "456789", some 55, "123456789012"⟩ from rfl] at h
  exact Except.noConfusion h

/-- Claim C8 (amended): a payload with a truthy barcode_data is parsed from
the barcode alone (except that a supplied ticket_number overrides the pack
number of a dashless numeric barcode) and never fails with MissingFields even
when the structured shape is also present; MissingFields occurs exactly when
barcode_data is absent or empty and the structured shape is incomplete. -/
theorem parseScanInput_missingFields_iff (p : ScanTicketRequest) :
    parseScanInput p = .error .missingFields ↔
      barcodeShapePresent p = false ∧ structuredShapeComplete p = false := by
  cases hb : p.barcode_data with
  | none =>
    simp only [parseScanInput, barcodeShapePresent, hb]
    simp [parseStructured_missingFields_iff p]
  | some bd =>
    simp only [parseScanInput, barcodeShapePresent, hb]
    by_cases hbd : bd = ""
    · subst hbd
      simp [parseStructured_missingFields_iff p]
    · rw [if_pos hbd]
      simp [parseBarcode_ne_missingFields bd p.ticket_number, hbd]

/-- Witness for the amended C8 at concrete payloads: a payload with no
barcode and a missing lottery_number fails with MissingFields, and the
both-shapes payload of the counterexample does not. -/
theorem parseScanInput_missingFields_iff_witness :
    parseScanInput ⟨none, none, some "888888", some 55, none⟩ =
      .error .missingFields ∧
    ¬ parseScanInput ⟨some "123456789012", some "999", some "888888", some 55, none⟩ =
      .error .missingFields :=
  ⟨(parseScanInput_missingFields_iff ⟨none, none, some "888888", some 55, none⟩).2
      ⟨rfl, rfl⟩,
   fun h =>
    by
      have hc := (parseScanInput_missingFields_iff
        ⟨some "123456789012", some "999", some "888888", some 55, none⟩).1 h
      exact Bool.noConfusion hc.1⟩

/-- Row of STORE_OWNER as affected by deleteStoreOwnerAccount. -/
structure OwnerRow where
  owner_id : Nat
deriving DecidableEq, Repr

/-- Row of STORES: key and owning account. -/
structure StoreRow where
  store_id : Nat
  owner_id : Nat
deriving DecidableEq, Repr

/-- Row of STORE_LOTTERY_INVENTORY as addressed by the cascade: its id and its
store. -/
structure InventoryDbRow where
  id : Nat
  store_id : Nat
deriving DecidableEq, Repr

/-- Row of DAILY_REPORT as addressed by the cascade: the owning book. -/
structure DailyReportDbRow where
  book_id : Nat
deriving DecidableEq, Repr

/-- Row of SCANNED_TICKETS as addressed by the cascade: its store and the
scanning account. -/
structure ScannedTicketRow where
  store_id : Nat
  scanned_by : Option Nat
deriving DecidableEq, Repr

/-- The five tables touched by the account-deletion cascade of
superAdminController.ts lines 640-721. -/
structure Db where
  owners : List OwnerRow
  stores : List StoreRow
  inventories : List InventoryDbRow
  dailyReports : List DailyReportDbRow
  scannedTickets : List ScannedTicketRow
deriving DecidableEq, Repr

/-- SELECT store_id FROM STORES WHERE owner_id = ? (line 657). -/
def ownedStoreIds (db : Db) (ownerId : Nat) : List Nat :=
  (db.stores.filter (fun s => decide (s.owner_id = ownerId))).map
    (fun s => s.store_id)

/-- SELECT id FROM STORE_LOTTERY_INVENTORY WHERE store_id IN (...) (line
667). -/
def ownedInventoryIds (db : Db) (ownerId : Nat) : List Nat :=
  (db.inventories.filter
      (fun i => decide (i.store_id ∈ ownedStoreIds db ownerId))).map
    (fun i => i.id)

/-- Tail of the cascade run on every path (queries at lines 701 and 703):
delete SCANNED_TICKETS of the owner as scanner, then the owner row, then
commit. db0 is the state at BEGIN, restored on rollback. -/
def delOwnerSteps (db0 db : Db) (ownerId : Nat) (fail : Nat → Bool) : Db × Bool :=
  if fail 6 then (db0, false)
  else
    let dbA : Db :=
      { db with
          scannedTickets :=
            db.scannedTickets.filter (fun t => !(decide (t.scanned_by = some ownerId))) }
    if fail 7 then (db0, false)
    else
      let dbB : Db :=
        { dbA with
            owners := dbA.owners.filter (fun ow => !(decide (ow.owner_id = ownerId))) }
      (dbB, true)

/-- Store-level part of the cascade (queries at lines 690 and 695): delete
SCANNED_TICKETS of the owned stores, then the stores themselves, then the
tail. -/
def delStoreSteps (db0 db : Db) (ownerId : Nat) (storeIds : List Nat)
    (fail : Nat → Bool) : Db × Bool :=
  if fail 4 then (db0, false)
  else
    let dbA : Db :=
      { db with
          scannedTickets :=
            db.scannedTickets.filter (fun t => !(decide (t.store_id ∈ storeIds))) }
    if fail 5 then (db0, false)
    else
      let dbB : Db :=
        { dbA with
            stores :=
              dbA.stores.filter
                (fun s => !(decide (s.store_id ∈ storeIds) && decide (s.owner_id = ownerId))) }
      delOwnerSteps db0 dbB ownerId fail

/-- deleteStoreOwnerAccount of superAdminController.ts lines 640-721, as a
state transformer over the five tables. fail n = true models the n-th query of
the transaction throwing; the catch block (lines 710-715) rolls the
transaction back, so a failing run returns the state at BEGIN unchanged. The
inventory-dependent deletes (daily reports at line 679, inventories at line
684) run only when the owner has stores and those stores have inventories,
mirroring the emptiness guards at lines 664 and 676. -/
def deleteStoreOwnerAccount (db : Db) (ownerId : Nat) (fail : Nat → Bool) :
    Db × Bool :=
  if fail 0 then (db, false)
  else
    let storeIds := ownedStoreIds db ownerId
    if storeIds.isEmpty then delOwnerSteps db db ownerId fail
    else
      if fail 1 then (db, false)
      else
        let inventoryIds := ownedInventoryIds db ownerId
        if inventoryIds.isEmpty then delStoreSteps db db ownerId storeIds fail
        else
          if fail 2 then (db, false)
          else
            let db2 : Db :=
              { db with
                  dailyReports :=
                    db.dailyReports.filter
                      (fun d => !(decide (d.book_id ∈ inventoryIds))) }
            if fail 3 then (db, false)
            else
              let db3 : Db :=
                { db2 with
                    inventories :=
                      db2.inventories.filter
                        (fun i => !(decide (i.id ∈ inventoryIds))) }
              delStoreSteps db db3 ownerId storeIds fail

/-- Postcondition of a committed cascade: no row dependent on the owner (as
computed from the state db0 at BEGIN) survives in the final state. -/
def cascadeDeleted (db0 final : Db) (ownerId : Nat) : Prop :=
  (∀ ow ∈ final.owners, ow.owner_id ≠ ownerId) ∧
  (∀ s ∈ final.stores, s.owner_id ≠ ownerId) ∧
  (∀ i ∈ final.inventories, i.store_id ∉ ownedStoreIds db0 ownerId) ∧
  (∀ d ∈ final.dailyReports, d.book_id ∉ ownedInventoryIds db0 ownerId) ∧
  (∀ t ∈ final.scannedTickets,
    t.store_id ∉ ownedStoreIds db0 ownerId ∧ t.scanned_by ≠ some ownerId)

-- Helper: delOwnerSteps either rolls back to db0 or commits the two tail
-- deletes applied to db.
lemma delOwnerSteps_cases (db0 db : Db) (o : Nat) (fail : Nat → Bool) :
    delOwnerSteps db0 db o fail = (db0, false) ∨
    delOwnerSteps db0 db o fail =
      ({ db with
          owners := db.owners.filter (fun ow => !(decide (ow.owner_id = o)))
          scannedTickets :=
            db.scannedTickets.filter (fun t => !(decide (t.scanned_by = some o))) },
        true) := by
  unfold delOwnerSteps
  split_ifs
  · exact Or.inl rfl
  · exact Or.inl rfl
  · exact Or.inr rfl

-- Helper: delStoreSteps either rolls back to db0 or hands the two store-level
-- deletes applied to db over to the tail.
lemma delStoreSteps_cases (db0 db : Db) (o : Nat) (sids : List Nat)
    (fail : Nat → Bool) :
    delStoreSteps db0 db o sids fail = (db0, false) ∨
    delStoreSteps db0 db o sids fail =
      delOwnerSteps db0
        { db with
            stores :=
              db.stores.filter
                (fun s => !(decide (s.store_id ∈ sids) && decide (s.owner_id = o)))
            scannedTickets :=
              db.scannedTickets.filter (fun t => !(decide (t.store_id ∈ sids))) }
        o fail := by
  unfold delStoreSteps
  split_ifs
  · exact Or.inl rfl
  · exact Or.inl rfl
  · exact Or.inr rfl

-- Helper: a store of the owner contributes its id to ownedStoreIds.
lemma mem_ownedStoreIds (db : Db) (o : Nat) (s : StoreRow)
    (hs : s ∈ db.stores) (ho : s.owner_id = o) :
    s.store_id ∈ ownedStoreIds db o :=
  List.mem_map.2 ⟨s, List.mem_filter.2 ⟨hs, by simp [ho]⟩, rfl⟩

-- Helper: an inventory of an owned store contributes its id to
-- ownedInventoryIds.
lemma mem_ownedInventoryIds (db : Db) (o : Nat) (i : InventoryDbRow)
    (hi : i ∈ db.inventories) (hm : i.store_id ∈ ownedStoreIds db o) :
    i.id ∈ ownedInventoryIds db o :=
  List.mem_map.2 ⟨i, List.mem_filter.2 ⟨hi, by simp [hm]⟩, rfl⟩

-- Helper: an empty owned-store selection means no store belongs to the owner.
lemma ownedStoreIds_empty (db : Db) (o : Nat)
    (h : (ownedStoreIds db o).isEmpty = true) :
    ∀ s ∈ db.stores, s.owner_id ≠ o := by
  intro s hs ho
  have hmem := mem_ownedStoreIds db o s hs ho
  rw [List.isEmpty_iff.1 h] at hmem
  exact List.not_mem_nil _ hmem

-- Helper: with no owned stores the owned-inventory selection is empty too.
lemma ownedInventoryIds_nil (db : Db) (o : Nat) (h : ownedStoreIds db o = []) :
    ownedInventoryIds db o = [] := by
  unfold ownedInventoryIds
  rw [h]
  simp

-- Helper: an empty owned-inventory selection means no inventory sits in an
-- owned store.
lemma ownedInventoryIds_empty (db : Db) (o : Nat)
    (h : (ownedInventoryIds db o).isEmpty = true) :
    ∀ i ∈ db.inventories, i.store_id ∉ ownedStoreIds db o := by
  intro i hi hm
  have hmem := mem_ownedInventoryIds db o i hi hm
  rw [List.isEmpty_iff.1 h] at hmem
  exact List.not_mem_nil _ hmem

-- Helper: the committed tail state satisfies the cascade postcondition as
-- soon as the intermediate state already has no dependent stores,
-- inventories, daily reports or store-scoped scan rows.
lemma cascadeDeleted_of_commit (db0 dbMid : Db) (o : Nat)
    (hstores : ∀ s ∈ dbMid.stores, s.owner_id ≠ o)
    (hinv : ∀ i ∈ dbMid.inventories, i.store_id ∉ ownedStoreIds db0 o)
    (hdr : ∀ d ∈ dbMid.dailyReports, d.book_id ∉ ownedInventoryIds db0 o)
    (hst : ∀ t ∈ dbMid.scannedTickets, t.store_id ∉ ownedStoreIds db0 o) :
    cascadeDeleted db0
      { dbMid with
          owners := dbMid.owners.filter (fun ow => !(decide (ow.owner_id = o)))
          scannedTickets :=
            dbMid.scannedTickets.filter
              (fun t => !(decide (t.scanned_by = some o))) }
      o := by
  refine ⟨?_, hstores, hinv, hdr, ?_⟩
  · intro ow how
    have hm := List.mem_filter.1 how
    simpa using hm.2
  · intro t ht
    have hm := List.mem_filter.1 ht
    exact ⟨hst t hm.1, by simpa using hm.2⟩

/-- Claim C10: atomic account-deletion cascade. For every database state,
owner and failure pattern of the transaction queries: if any step fails the
returned state is the state at BEGIN unchanged (rollback, no partial deletion
persists), and on success every row dependent on the owner — daily reports of
the owned books, inventories of the owned stores, scan logs of the owned
stores or scanned by the owner, the stores and the owner row — is removed. -/
theorem deleteStoreOwnerAccount_atomic (db : Db) (ownerId : Nat)
    (fail : Nat → Bool) :
    ((deleteStoreOwnerAccount db ownerId fail).2 = false →
      (deleteStoreOwnerAccount db ownerId fail).1 = db) ∧
    ((deleteStoreOwnerAccount db ownerId fail).2 = true →
      cascadeDeleted db (deleteStoreOwnerAccount db ownerId fail).1 ownerId) := by
  simp only [deleteStoreOwnerAccount]
  split_ifs with h0 hSE h1 hIE h2 h3
  · exact ⟨fun _ => rfl, fun h => nomatch h⟩
  · -- no owned stores: straight to the tail deletes
    rcases delOwnerSteps_cases db db ownerId fail with hcase | hcase <;> rw [hcase]
    · exact ⟨fun _ => rfl, fun h => nomatch h⟩
    · refine ⟨fun h => (nomatch h), fun _ => ?_⟩
      have hnil : ownedStoreIds db ownerId = [] := List.isEmpty_iff.1 hSE
      refine cascadeDeleted_of_commit db db ownerId
        (ownedStoreIds_empty db ownerId hSE) ?_ ?_ ?_
      · intro i _
        rw [hnil]
        exact List.not_mem_nil _
      · intro d _
        rw [ownedInventoryIds_nil db ownerId hnil]
        exact List.not_mem_nil _
      · intro t _
        rw [hnil]
        exact List.not_mem_nil _
  · exact ⟨fun _ => rfl, fun h => nomatch h⟩
  · -- owned stores but no inventories in them
    rcases delStoreSteps_cases db db ownerId (ownedStoreIds db ownerId) fail
      with hcase | hcase <;> rw [hcase]
    · exact ⟨fun _ => rfl, fun h => nomatch h⟩
    · rcases delOwnerSteps_cases db _ ownerId fail with h2c | h2c <;> rw [h2c]
      · exact ⟨fun _ => rfl, fun h => nomatch h⟩
      · refine ⟨fun h => (nomatch h), fun _ => ?_⟩
        refine cascadeDeleted_of_commit db _ ownerId ?_ ?_ ?_ ?_
        · intro s hs
          have hm := List.mem_filter.1 hs
          intro ho
          have hsid := mem_ownedStoreIds db ownerId s hm.1 ho
          simp [hsid, ho] at hm
        · intro i hi
          exact ownedInventoryIds_empty db ownerId hIE i hi
        · intro d _
          intro hmem
          rw [List.isEmpty_iff.1 hIE] at hmem
          exact List.not_mem_nil _ hmem
        · intro t ht
          have hm := List.mem_filter.1 ht
          simpa using hm.2
  · exact ⟨fun _ => rfl, fun h => nomatch h⟩
  · exact ⟨fun _ => rfl, fun h => nomatch h⟩
  · -- full cascade: daily reports and inventories deleted first
    rcases delStoreSteps_cases db _ ownerId (ownedStoreIds db ownerId) fail
      with hcase | hcase <;> rw [hcase]
    · exact ⟨fun _ => rfl, fun h => nomatch h⟩
    · rcases delOwnerSteps_cases db _ ownerId fail with h2c | h2c <;> rw [h2c]
      · exact ⟨fun _ => rfl, fun h => nomatch h⟩
      · refine ⟨fun h => (nomatch h), fun _ => ?_⟩
        refine cascadeDeleted_of_commit db _ ownerId ?_ ?_ ?_ ?_
        · intro s hs
          have hm := List.mem_filter.1 hs
          intro ho
          have hsid := mem_ownedStoreIds db ownerId s hm.1 ho
          simp [hsid, ho] at hm
        · intro i hi
          have hm := List.mem_filter.1 hi
          intro hsid
          have hid := mem_ownedInventoryIds db ownerId i hm.1 hsid
          simp [hid] at hm
        · intro d hd
          have hm := List.mem_filter.1 hd
          simpa using hm.2
        · intro t ht
          have hm := List.mem_filter.1 ht
          simpa using hm.2

/-- Witness for C10 at a concrete database with two owners, two stores, two
books, two reports and two scan rows: with no failing step the cascade commits
and the dependent rows of owner 1 are gone; with the fourth query failing the
run reports failure and returns the original state unchanged. -/
theorem deleteStoreOwnerAccount_atomic_witness :
    cascadeDeleted
      ⟨[⟨1⟩, ⟨2⟩], [⟨10, 1⟩, ⟨11, 2⟩], [⟨100, 10⟩, ⟨101, 11⟩], [⟨100⟩, ⟨101⟩],
        [⟨10, some 1⟩, ⟨11, some 2⟩]⟩
      (deleteStoreOwnerAccount
        ⟨[⟨1⟩, ⟨2⟩], [⟨10, 1⟩, ⟨11, 2⟩], [⟨100, 10⟩, ⟨101, 11⟩], [⟨100⟩, ⟨101⟩],
          [⟨10, some 1⟩, ⟨11, some 2⟩]⟩ 1 (fun _ => false)).1 1 ∧
    (deleteStoreOwnerAccount
        ⟨[⟨1⟩, ⟨2⟩], [⟨10, 1⟩, ⟨11, 2⟩], [⟨100, 10⟩, ⟨101, 11⟩], [⟨100⟩, ⟨101⟩],
          [⟨10, some 1⟩, ⟨11, some 2⟩]⟩ 1 (fun n => decide (n = 3))).1 =
      ⟨[⟨1⟩, ⟨2⟩], [⟨10, 1⟩, ⟨11, 2⟩], [⟨100, 10⟩, ⟨101, 11⟩], [⟨100⟩, ⟨101⟩],
        [⟨10, some 1⟩, ⟨11, some 2⟩]⟩ :=
  ⟨(deleteStoreOwnerAccount_atomic
      ⟨[⟨1⟩, ⟨2⟩], [⟨10, 1⟩, ⟨11, 2⟩], [⟨100, 10⟩, ⟨101, 11⟩], [⟨100⟩, ⟨101⟩],
        [⟨10, some 1⟩, ⟨11, some 2⟩]⟩ 1 (fun _ => false)).2 rfl,
   (deleteStoreOwnerAccount_atomic
      ⟨[⟨1⟩, ⟨2⟩], [⟨10, 1⟩, ⟨11, 2⟩], [⟨100, 10⟩, ⟨101, 11⟩], [⟨100⟩, ⟨101⟩],
        [⟨10, some 1⟩, ⟨11, some 2⟩]⟩ 1 (fun n => decide (n = 3))).1 rfl⟩
